import Mathlib

/-
Shallow embedding of src/tracker.py (index-price-tracker).

Prices are modelled as rationals; the floating point representation of the
source is idealized to exact rational arithmetic (division is the total
rational division). The market data provider (yfinance) is an oracle from
queries to the list of numeric values of the requested series, ordered
oldest to newest; dropna is reflected by the lists holding only the
non-missing values, so an empty frame corresponds to the empty list.
Timestamps are integers counting seconds; the Python timedelta days
attribute is floor division by 86400. The persisted cache file is modelled
by the list of snapshots handed to save_cache (which in the source is a
best-effort write that swallows errors). Console and HTML rendering of a
row is abstracted to the ordered list of row records together with the
column widths computed from the money-format oracle, since rendering is an
out-of-scope collaborator.
-/

deriving instance DecidableEq for Except

/-- A cache entry as read from the JSON cache file. The ath field is none
when absent, some none when present but not parseable as a float, and
some (some v) when it parses to v. The updated field is some t when present
and ISO-parseable to the timestamp t, none otherwise. -/
structure CacheEntry where
  ath : Option (Option ℚ)
  updated : Option Int
  deriving DecidableEq

/-- The cache dictionary: ticker to entry, in insertion order like a Python
dict. -/
abbrev Cache := List (String × CacheEntry)

def lookupCache : Cache → String → Option CacheEntry
  | [], _ => none
  | (k, e) :: rest, t => if k = t then some e else lookupCache rest t

/-- Python dict assignment: replace in place, or append a new key. -/
def insertCache : Cache → String → CacheEntry → Cache
  | [], t, e => [(t, e)]
  | (k, e0) :: rest, t, e =>
    if k = t then (k, e) :: rest else (k, e0) :: insertCache rest t e

/-- The distinct yfinance history queries issued by tracker.py. intraday1d
carries the attempt number so that the two retry attempts of
get_current_price may observe different data. daily carries the number of
days of the period string; ytd carries the start year. -/
inductive Query where
  | histMax : String → Query
  | intraday5dHigh : String → Query
  | intraday1d : String → Nat → Query
  | daily : String → Nat → Query
  | ytd : String → Int → Query
  deriving DecidableEq

abbrev Provider := Query → List ℚ

/-- pandas Series.max over the modelled series: none on an empty series. -/
def listMax : List ℚ → Option ℚ
  | [] => none
  | x :: xs =>
    match listMax xs with
    | none => some x
    | some m => some (max x m)

def maxOr0 (l : List ℚ) : ℚ := (listMax l).getD 0

/-- Python truthiness coercion in the expression
max(..., intraday_high if intraday_high else 0): None and 0.0 are falsy. -/
def pyTruthyOr0 : Option ℚ → ℚ
  | none => 0
  | some v => if v = 0 then 0 else v

/-- timedelta.days: floor division of the second count by 86400. -/
def tdDays (delta : Int) : Int := Int.fdiv delta 86400

/-- The freshness test of get_cached_ath, lines 41-47 of tracker.py:
some v exactly when the updated field parses, the entry is younger than
7 days, and the ath field is present and parses to v; any failure inside
the try block falls through to the refresh path. -/
def freshValue (now : Int) (e : CacheEntry) : Option ℚ :=
  match e.updated with
  | none => none
  | some t =>
    if tdDays (now - t) < 7 then
      match e.ath with
      | none => none
      | some pv => pv
    else none

/-- Outcome of get_cached_ath: the returned value or raised message, the
cache dictionary afterwards, how many provider history calls were made,
and the snapshots handed to save_cache. -/
structure AthResult where
  result : Except String ℚ
  cache : Cache
  calls : Nat
  saves : List Cache
  deriving DecidableEq

/-- The refresh path of get_cached_ath, lines 49-61 of tracker.py. -/
def refreshAth (P : Provider) (now : Int) (ticker : String) (cache : Cache) : AthResult :=
  let hist_all := P (Query.histMax ticker)
  let intraday_high := listMax (P (Query.intraday5dHigh ticker))
  if hist_all = [] ∧ intraday_high = none then
    ⟨Except.error ("Could not refresh ATH for " ++ ticker), cache, 2, []⟩
  else
    let ath := max (if hist_all = [] then 0 else maxOr0 hist_all) (pyTruthyOr0 intraday_high)
    let cNew := insertCache cache ticker ⟨some (some ath), some now⟩
    ⟨Except.ok ath, cNew, 2, [cNew]⟩

/-- get_cached_ath, lines 36-61 of tracker.py. -/
def get_cached_ath (P : Provider) (now : Int) (ticker : String) (cache : Cache) : AthResult :=
  match (lookupCache cache ticker).bind (fun e => freshValue now e) with
  | some v => ⟨Except.ok v, cache, 0, []⟩
  | none => refreshAth P now ticker cache

/-- Outcome of get_current_price: value or raised message, the number of
intraday attempts issued, and the number of fixed 2 second backoff sleeps
performed. -/
structure PriceResult where
  result : Except String ℚ
  attempts : Nat
  sleeps : Nat
  deriving DecidableEq

/-- get_current_price, lines 63-74 of tracker.py, with the two-iteration
retry loop unrolled. -/
def get_current_price (P : Provider) (ticker : String) : PriceResult :=
  let i0 := P (Query.intraday1d ticker 0)
  if i0 = [] then
    let i1 := P (Query.intraday1d ticker 1)
    if i1 = [] then
      let daily := P (Query.daily ticker 5)
      if daily = [] then
        ⟨Except.error ("No price data for " ++ ticker), 2, 2⟩
      else
        ⟨Except.ok (daily.getLastD 0), 2, 2⟩
    else
      ⟨Except.ok (i1.getLastD 0), 2, 1⟩
  else
    ⟨Except.ok (i0.getLastD 0), 1, 0⟩

/-- get_24h_change_live, lines 76-83 of tracker.py. -/
def get_24h_change_live (P : Provider) (ticker : String) (current_price : ℚ) : Option ℚ :=
  let hist := P (Query.daily ticker 2)
  if hist.length < 1 then none
  else some ((current_price / hist.getLastD 0 - 1) * 100)

/-- get_change_percent, lines 85-93 of tracker.py. The Python access
hist.iloc[-k] is position hist.length - k when k is positive and
position 0 when k = 0. -/
def get_change_percent (P : Provider) (ticker : String) (days : Nat) : Option ℚ :=
  let hist := P (Query.daily ticker (max (days + 5) 10))
  if hist.length < 2 then none
  else
    let now_price := hist.getLastD 0
    let k := min days (hist.length - 1)
    let past_price := if k = 0 then hist.getD 0 0 else hist.getD (hist.length - k) 0
    some ((now_price / past_price - 1) * 100)

/-- get_ytd_change, lines 95-104 of tracker.py: the query starts at
January 1 of the current calendar year, abstracted as the year argument. -/
def get_ytd_change (P : Provider) (ticker : String) (year : Int) : Option ℚ :=
  let hist := P (Query.ytd ticker year)
  if hist = [] then none
  else some ((hist.getLastD 0 / hist.headD 0 - 1) * 100)

/-- A successful per-asset record, lines 166-178 of tracker.py. -/
structure RowData where
  name : String
  current : ℚ
  ath : ℚ
  from_ath : ℚ
  c1d : Option ℚ
  c1w : Option ℚ
  c1m : Option ℚ
  c3m : Option ℚ
  c6m : Option ℚ
  c1y : Option ℚ
  cytd : Option ℚ
  deriving DecidableEq

/-- A row appended to rows in main: a success record or an error record
with the display name and the exception text. -/
inductive Row where
  | ok : RowData → Row
  | err : String → String → Row
  deriving DecidableEq

/-- The success record built in the try block of main once ath and current
are known, lines 154-178 of tracker.py. -/
def mkRowData (P : Provider) (name ticker : String) (current ath : ℚ) (year : Int) : RowData :=
  { name := name
    current := current
    ath := ath
    from_ath := (current / ath - 1) * 100
    c1d := get_24h_change_live P ticker current
    c1w := get_change_percent P ticker 7
    c1m := get_change_percent P ticker 30
    c3m := get_change_percent P ticker 90
    c6m := get_change_percent P ticker 180
    c1y := get_change_percent P ticker 365
    cytd := get_ytd_change P ticker year }

/-- Outcome of processing one asset: the appended row, the cache
afterwards, and the snapshots handed to save_cache during the iteration. -/
structure StepResult where
  row : Row
  cache : Cache
  saves : List Cache
  deriving DecidableEq

/-- One iteration of the per-asset loop of main, lines 144-181 of
tracker.py. nowA is the clock value read inside get_cached_ath, nowB the
one read for the live-breach cache update, year the current calendar year
read inside get_ytd_change. An exception raised by either retrieval is
caught at the asset boundary and becomes an error row; cache mutations made
before the exception survive, as they do in the source. -/
def processAsset (P : Provider) (nowA nowB year : Int) (name ticker : String) (cache : Cache) : StepResult :=
  let r1 := get_cached_ath P nowA ticker cache
  match r1.result with
  | Except.error e => ⟨Row.err name e, r1.cache, r1.saves⟩
  | Except.ok ath0 =>
    match (get_current_price P ticker).result with
    | Except.error e => ⟨Row.err name e, r1.cache, r1.saves⟩
    | Except.ok current =>
      if ath0 < current then
        let c2 := insertCache r1.cache ticker ⟨some (some current), some nowB⟩
        ⟨Row.ok (mkRowData P name ticker current current year), c2, r1.saves ++ [c2]⟩
      else
        ⟨Row.ok (mkRowData P name ticker current ath0 year), r1.cache, r1.saves⟩

/-- Outcome of the whole per-asset loop. -/
structure RunResult where
  rows : List Row
  cache : Cache
  saves : List Cache
  deriving DecidableEq

/-- The per-asset loop of main over an asset list, threading the cache. -/
def runAssets (P : Provider) (nowA nowB year : Int) (assets : List (String × String)) (cache : Cache) : RunResult :=
  match assets with
  | [] => ⟨[], cache, []⟩
  | (name, ticker) :: rest =>
    let s := processAsset P nowA nowB year name ticker cache
    let r := runAssets P nowA nowB year rest s.cache
    ⟨s.row :: r.rows, r.cache, s.saves ++ r.saves⟩

def rowName : Row → String
  | Row.ok d => d.name
  | Row.err n _ => n

def isErrRow : Row → Bool
  | Row.ok _ => false
  | Row.err _ _ => true

/-- The ath value a report row carries, none for an error record. -/
def rowAthField : Row → Option ℚ
  | Row.ok d => some d.ath
  | Row.err _ _ => none

/-- The success records of rows, in order: the generator
(r for r in rows if "error" not in r). -/
def okRows (rows : List Row) : List RowData :=
  rows.filterMap fun r =>
    match r with
    | Row.ok d => some d
    | Row.err _ _ => none

/-- Python max over a sequence of naturals: ValueError on the empty
sequence. -/
def pyMaxNat : List Nat → Except String Nat
  | [] => Except.error "max() arg is an empty sequence"
  | x :: xs => Except.ok (xs.foldl max x)

/-- What main produces after the loop when it does not abort: the two
column widths, the rows printed per asset in order, and the rows rendered
into report.html in order. -/
structure MainOutput where
  current_width : Nat
  ath_width : Nat
  printed : List Row
  report : List Row
  deriving DecidableEq

/-- Lines 183-234 of tracker.py: the column-width computations (each a
Python max over the formatted widths of the success rows, raising
ValueError on an empty sequence), then the per-asset printing, then the
report.html write. fm is the money-format oracle for the f-string
dollar format; an uncaught ValueError aborts before any per-asset output
or report write, which the Except sequencing captures. -/
def mainAfterLoop (fm : ℚ → String) (rows : List Row) : Except String MainOutput :=
  match pyMaxNat ((okRows rows).map fun d => (fm d.current).length) with
  | Except.error e => Except.error e
  | Except.ok cw =>
    match pyMaxNat ((okRows rows).map fun d => (fm d.ath).length) with
    | Except.error e => Except.error e
    | Except.ok aw => Except.ok ⟨cw, aw, rows, rows⟩

/-- The hardcoded asset list of main, lines 134-138 of tracker.py. -/
def tickersList : List (String × String) :=
  [("NASDAQ-100", "^NDX"), ("S&P 500", "^GSPC"), ("Bitcoin", "BTC-USD")]

/-- main, lines 129-236 of tracker.py: the loop over the hardcoded
tickers followed by the post-loop rendering; the cache argument is the
load_cache result. -/
def main_run (P : Provider) (nowA nowB year : Int) (fm : ℚ → String) (cache : Cache) : Except String MainOutput × RunResult :=
  let r := runAssets P nowA nowB year tickersList cache
  (mainAfterLoop fm r.rows, r)

/-- The modelled series maximum is none exactly on the empty series. -/
theorem listMax_eq_none_iff (l : List ℚ) : listMax l = none ↔ l = [] := by
  cases l with
  | nil => simp [listMax]
  | cons x xs =>
    simp only [listMax]
    cases h : listMax xs <;> simp

theorem ite_empty_maxOr0 (l : List ℚ) : (if l = [] then (0 : ℚ) else maxOr0 l) = maxOr0 l := by
  by_cases h : l = []
  · simp [h, maxOr0, listMax]
  · simp [h]

theorem pyTruthyOr0_listMax (l : List ℚ) : pyTruthyOr0 (listMax l) = maxOr0 l := by
  unfold pyTruthyOr0 maxOr0
  cases h : listMax l with
  | none => simp
  | some v =>
    by_cases hv : v = 0 <;> simp [hv]

theorem lookupCache_insertCache_self (c : Cache) (t : String) (e : CacheEntry) :
    lookupCache (insertCache c t e) t = some e := by
  induction c with
  | nil => simp [insertCache, lookupCache]
  | cons p rest ih =>
    obtain ⟨k, e0⟩ := p
    by_cases hk : k = t
    · simp [insertCache, hk, lookupCache]
    · simp [insertCache, hk, lookupCache, ih]

/-- A fresh lookup short-circuits get_cached_ath: the cached value is
returned, nothing is queried, nothing is written. -/
theorem get_cached_ath_fresh (P : Provider) (now : Int) (ticker : String)
    (cache : Cache) (v : ℚ)
    (h : (lookupCache cache ticker).bind (fun e => freshValue now e) = some v) :
    get_cached_ath P now ticker cache = ⟨Except.ok v, cache, 0, []⟩ := by
  unfold get_cached_ath
  rw [h]

/-- When no fresh value is available, get_cached_ath is the refresh path. -/
theorem get_cached_ath_stale (P : Provider) (now : Int) (ticker : String)
    (cache : Cache)
    (h : (lookupCache cache ticker).bind (fun e => freshValue now e) = none) :
    get_cached_ath P now ticker cache = refreshAth P now ticker cache := by
  unfold get_cached_ath
  rw [h]

/-- The fresh value is exactly the parsed ath field of the entry. -/
theorem freshValue_ath (now : Int) (e : CacheEntry) (v : ℚ)
    (h : freshValue now e = some v) : e.ath = some (some v) := by
  obtain ⟨a, u⟩ := e
  cases u with
  | none => simp [freshValue] at h
  | some t =>
    by_cases hd : tdDays (now - t) < 7
    · cases a with
      | none => simp [freshValue, hd] at h
      | some pv =>
        simp only [freshValue, hd, if_true] at h
        simpa using h
    · simp [freshValue, hd] at h

/-- Closed form of the refresh path of get_cached_ath, with the Python
truthiness coercions resolved into the plain maxima. -/
theorem refreshAth_eq (P : Provider) (now : Int) (ticker : String) (cache : Cache) :
    refreshAth P now ticker cache =
      if P (Query.histMax ticker) = [] ∧ P (Query.intraday5dHigh ticker) = [] then
        ⟨Except.error ("Could not refresh ATH for " ++ ticker), cache, 2, []⟩
      else
        ⟨Except.ok (max (maxOr0 (P (Query.histMax ticker))) (maxOr0 (P (Query.intraday5dHigh ticker)))),
         insertCache cache ticker
           ⟨some (some (max (maxOr0 (P (Query.histMax ticker))) (maxOr0 (P (Query.intraday5dHigh ticker))))), some now⟩,
         2,
         [insertCache cache ticker
           ⟨some (some (max (maxOr0 (P (Query.histMax ticker))) (maxOr0 (P (Query.intraday5dHigh ticker))))), some now⟩]⟩ := by
  simp only [refreshAth, ite_empty_maxOr0, pyTruthyOr0_listMax, listMax_eq_none_iff]

/-- Claim C2: for every ticker whose cache entry has an updated timestamp
less than 7 days before now and an ath field present that parses as the
number v, get_cached_ath returns v verbatim, makes no provider history
call, and leaves both the in-memory cache mapping and the persisted cache
file unchanged (no save_cache snapshot is produced). -/
theorem C2_fresh_entry_verbatim (P : Provider) (now : Int) (ticker : String)
    (cache : Cache) (e : CacheEntry) (t : Int) (v : ℚ)
    (hlook : lookupCache cache ticker = some e)
    (hupd : e.updated = some t)
    (hfresh : tdDays (now - t) < 7)
    (hath : e.ath = some (some v)) :
    get_cached_ath P now ticker cache = ⟨Except.ok v, cache, 0, []⟩ := by
  obtain ⟨a, u⟩ := e
  dsimp at hupd hath
  subst hupd hath
  apply get_cached_ath_fresh
  rw [hlook]
  simp [freshValue, hfresh]

/-- Witness for C2: a concrete two-day-old entry is returned verbatim with
zero provider calls and no persistence. -/
theorem C2_fresh_entry_verbatim_witness :
    get_cached_ath (fun _ => [9]) (2 * 86400) "T" [("T", ⟨some (some 42), some 0⟩)]
      = ⟨Except.ok 42, [("T", ⟨some (some 42), some 0⟩)], 0, []⟩ :=
  C2_fresh_entry_verbatim (fun _ => [9]) (2 * 86400) "T"
    [("T", ⟨some (some 42), some 0⟩)] ⟨some (some 42), some 0⟩ 0 42
    (by decide) rfl (by decide) rfl

/-- Claim C3: whenever get_cached_ath takes the refresh path (no fresh
value is obtainable from the entry: missing, stale, or unparsable), it
fails exactly when both the historical close series and the intraday high
series are empty, and otherwise returns and writes to the cache the value
max of the two series maxima, an empty side counting as 0, persisting the
updated cache immediately. -/
theorem C3_refresh_value_and_failure (P : Provider) (now : Int) (ticker : String)
    (cache : Cache) (histAll intr : List ℚ)
    (hh : P (Query.histMax ticker) = histAll)
    (hi : P (Query.intraday5dHigh ticker) = intr)
    (hstale : (lookupCache cache ticker).bind (fun e => freshValue now e) = none) :
    ((get_cached_ath P now ticker cache).result
        = Except.error ("Could not refresh ATH for " ++ ticker)
      ↔ (histAll = [] ∧ intr = []))
    ∧ (histAll ≠ [] ∨ intr ≠ [] →
        (get_cached_ath P now ticker cache).result
            = Except.ok (max (maxOr0 histAll) (maxOr0 intr))
          ∧ lookupCache (get_cached_ath P now ticker cache).cache ticker
              = some ⟨some (some (max (maxOr0 histAll) (maxOr0 intr))), some now⟩
          ∧ (get_cached_ath P now ticker cache).saves
              = [(get_cached_ath P now ticker cache).cache]) := by
  subst hh hi
  rw [get_cached_ath_stale P now ticker cache hstale, refreshAth_eq]
  by_cases hc : P (Query.histMax ticker) = [] ∧ P (Query.intraday5dHigh ticker) = []
  · rw [if_pos hc]
    constructor
    · simp [hc]
    · intro hne
      rcases hne with hne | hne
      · exact absurd hc.1 hne
      · exact absurd hc.2 hne
  · rw [if_neg hc]
    constructor
    · simp [hc]
    · intro _
      exact ⟨rfl, lookupCache_insertCache_self _ _ _, rfl⟩

/-- Provider for the C3 witness: full history maximum 100, intraday high
maximum 110 for ticker B, nothing else. -/
def provC3 : Provider := fun q =>
  match q with
  | Query.histMax "B" => [100]
  | Query.intraday5dHigh "B" => [110, 90]
  | _ => []

/-- Witness for C3: with an empty cache the refresh stores and returns
max(100, 110) and persists it. -/
theorem C3_refresh_value_and_failure_witness :
    (get_cached_ath provC3 5 "B" []).result
        = Except.ok (max (maxOr0 (provC3 (Query.histMax "B"))) (maxOr0 (provC3 (Query.intraday5dHigh "B"))))
      ∧ lookupCache (get_cached_ath provC3 5 "B" []).cache "B"
          = some ⟨some (some (max (maxOr0 (provC3 (Query.histMax "B"))) (maxOr0 (provC3 (Query.intraday5dHigh "B"))))), some 5⟩
      ∧ (get_cached_ath provC3 5 "B" []).saves = [(get_cached_ath provC3 5 "B" []).cache] :=
  (C3_refresh_value_and_failure provC3 5 "B" []
    (provC3 (Query.histMax "B")) (provC3 (Query.intraday5dHigh "B"))
    rfl rfl rfl).2 (Or.inl (by decide))

/-- Claim C7: if the queried daily-close window yields fewer than 2
non-missing observations, get_change_percent returns null; the embedded
function is total, so no exception can escape this path. -/
theorem C7_insufficient_data_null (P : Provider) (ticker : String) (days : Nat)
    (h : (P (Query.daily ticker (max (days + 5) 10))).length < 2) :
    get_change_percent P ticker days = none := by
  unfold get_change_percent
  simp [h]

/-- Witness for C7: an empty window yields null. -/
theorem C7_insufficient_data_null_witness :
    get_change_percent (fun _ => []) "T" 7 = none :=
  C7_insufficient_data_null (fun _ => []) "T" 7 (by decide)

/-- Claim C5 (amended): with a positive days argument, at least 2
observations, and history shorter than requested (days > n - 1), the code
clamps via min(days, n - 1) = n - 1 and reads position
n - (n - 1) = 1 of the series, the observation next to the oldest, not the
oldest one at position 0; the access is in range, so there is no
out-of-range failure, and the change is based on that observation. -/
theorem C5_lookback_clamp (P : Provider) (ticker : String) (days : Nat) (hist : List ℚ)
    (hhist : P (Query.daily ticker (max (days + 5) 10)) = hist)
    (hn : 2 ≤ hist.length)
    (hshort : hist.length - 1 < days) :
    hist.length - min days (hist.length - 1) = 1
    ∧ 1 < hist.length
    ∧ get_change_percent P ticker days
        = some ((hist.getLastD 0 / hist.getD 1 0 - 1) * 100) := by
  have h1 : min days (hist.length - 1) = hist.length - 1 :=
    Nat.min_eq_right (Nat.le_of_lt hshort)
  have h2 : hist.length - (hist.length - 1) = 1 := by omega
  refine ⟨by rw [h1, h2], hn, ?_⟩
  have hnot : ¬ hist.length < 2 := by omega
  have hk : ¬ (min days (hist.length - 1) = 0) := by omega
  simp only [get_change_percent, hhist]
  rw [if_neg hnot, if_neg hk, h1, h2]

/-- A daily close series of 40 observations: oldest 1, then 38 closes of
2, most recent 4. -/
def athList40 : List ℚ := [1, 2, 2, 2, 2, 2, 2, 2, 2, 2, 2, 2, 2, 2, 2, 2, 2, 2, 2, 2, 2, 2, 2, 2, 2, 2, 2, 2, 2, 2, 2, 2, 2, 2, 2, 2, 2, 2, 2, 4]

/-- Provider for the C5 counterexample: the 370-day window of ticker X
holds the 40-observation series, nothing else. -/
def provC5 : Provider := fun q =>
  match q with
  | Query.daily "X" 370 => athList40
  | _ => []

/-- Counterexample to C5 as stated: days = 365 against 40 observations
does not base the change on the oldest observation. The oldest close is 1,
which would give 300 percent; the code reads position 1 (close 2) and
returns 100 percent. -/
theorem C5_counterexample :
    (provC5 (Query.daily "X" (max (365 + 5) 10))).length = 40
    ∧ get_change_percent provC5 "X" 365 = some 100
    ∧ ((provC5 (Query.daily "X" (max (365 + 5) 10))).getLastD 0
        / (provC5 (Query.daily "X" (max (365 + 5) 10))).getD 0 0 - 1) * 100 = (300 : ℚ)
    ∧ (100 : ℚ) ≠ 300 := by
  refine ⟨by decide, ?_, ?_, by norm_num⟩
  · have h : get_change_percent provC5 "X" 365 = some (((4 : ℚ) / 2 - 1) * 100) := rfl
    rw [h]
    norm_num
  · have h4 : (provC5 (Query.daily "X" (max (365 + 5) 10))).getLastD 0 = (4 : ℚ) := rfl
    have hbase : (provC5 (Query.daily "X" (max (365 + 5) 10))).getD 0 0 = (1 : ℚ) := rfl
    rw [h4, hbase]
    norm_num

/-- Witness for the amended C5 at the concrete 40-observation series. -/
theorem C5_lookback_clamp_witness :
    athList40.length - min 365 (athList40.length - 1) = 1
    ∧ 1 < athList40.length
    ∧ get_change_percent provC5 "X" 365
        = some ((athList40.getLastD 0 / athList40.getD 1 0 - 1) * 100) :=
  C5_lookback_clamp provC5 "X" 365 athList40 rfl (by decide) (by decide)

/-- Claim C6 (amended): get_ytd_change consults the daily closes from
January 1 of the current calendar year to now, the ytd query of the
provider; it returns null exactly when that series is empty, and for every
nonempty series, including a singleton where the claim expected null, it
returns (last / first - 1) * 100 with first the first available close of
the year. -/
theorem C6_ytd_change (P : Provider) (ticker : String) (year : Int) (hist : List ℚ)
    (hhist : P (Query.ytd ticker year) = hist) :
    (hist = [] → get_ytd_change P ticker year = none)
    ∧ (hist ≠ [] →
        get_ytd_change P ticker year
          = some ((hist.getLastD 0 / hist.headD 0 - 1) * 100)) := by
  constructor
  · intro h
    simp only [get_ytd_change, hhist]
    rw [if_pos h]
  · intro h
    simp only [get_ytd_change, hhist]
    rw [if_neg h]

/-- Provider for the C6 counterexample: a single year-to-date close. -/
def provC6 : Provider := fun q =>
  match q with
  | Query.ytd "Y" 2025 => [5]
  | _ => []

/-- Counterexample to C6 as stated: a year-to-date series with exactly one
observation, fewer than 2, does not yield null: the code only tests for
emptiness, first and last coincide, and 0 is returned. -/
theorem C6_counterexample :
    (provC6 (Query.ytd "Y" 2025)).length = 1
    ∧ get_ytd_change provC6 "Y" 2025 = some 0
    ∧ get_ytd_change provC6 "Y" 2025 ≠ none := by
  refine ⟨by decide, ?_, ?_⟩
  · have h : get_ytd_change provC6 "Y" 2025 = some (((5 : ℚ) / 5 - 1) * 100) := rfl
    rw [h]
    norm_num
  · have h : get_ytd_change provC6 "Y" 2025 = some (((5 : ℚ) / 5 - 1) * 100) := rfl
    rw [h]
    simp

/-- Provider for the C6 witness: a two-observation year and an empty one. -/
def provC6w : Provider := fun q =>
  match q with
  | Query.ytd "Z" 2025 => [2, 4]
  | _ => []

/-- Witness for the amended C6: both branches at concrete inputs. -/
theorem C6_ytd_change_witness :
    get_ytd_change provC6w "Z" 2025
        = some (([(2 : ℚ), 4].getLastD 0 / [(2 : ℚ), 4].headD 0 - 1) * 100)
    ∧ get_ytd_change provC6w "W" 2025 = none :=
  ⟨(C6_ytd_change provC6w "Z" 2025 [2, 4] rfl).2 (by decide),
   (C6_ytd_change provC6w "W" 2025 [] rfl).1 rfl⟩

/-- Closed form of get_current_price as nested conditionals on the three
consulted series. -/
theorem get_current_price_eq (P : Provider) (ticker : String) :
    get_current_price P ticker =
      if P (Query.intraday1d ticker 0) = [] then
        if P (Query.intraday1d ticker 1) = [] then
          if P (Query.daily ticker 5) = [] then
            ⟨Except.error ("No price data for " ++ ticker), 2, 2⟩
          else ⟨Except.ok ((P (Query.daily ticker 5)).getLastD 0), 2, 2⟩
        else ⟨Except.ok ((P (Query.intraday1d ticker 1)).getLastD 0), 2, 1⟩
      else ⟨Except.ok ((P (Query.intraday1d ticker 0)).getLastD 0), 1, 0⟩ := rfl

/-- Claim C8: get_current_price issues at most 2 intraday attempts, with
the fixed backoff sleep counted after each failed attempt; it returns the
most recent intraday close as soon as an attempt yields a non-empty
series, falls back to the most recent close of the 5-day daily window when
both attempts are empty, and fails exactly when both intraday attempts and
the daily fallback are empty. -/
theorem C8_retry_fallback (P : Provider) (ticker : String) (i0 i1 d5 : List ℚ)
    (h0 : P (Query.intraday1d ticker 0) = i0)
    (h1 : P (Query.intraday1d ticker 1) = i1)
    (h5 : P (Query.daily ticker 5) = d5) :
    (get_current_price P ticker).attempts ≤ 2
    ∧ (i0 ≠ [] → get_current_price P ticker = ⟨Except.ok (i0.getLastD 0), 1, 0⟩)
    ∧ (i0 = [] → i1 ≠ [] → get_current_price P ticker = ⟨Except.ok (i1.getLastD 0), 2, 1⟩)
    ∧ (i0 = [] → i1 = [] → d5 ≠ [] → get_current_price P ticker = ⟨Except.ok (d5.getLastD 0), 2, 2⟩)
    ∧ ((get_current_price P ticker).result = Except.error ("No price data for " ++ ticker)
        ↔ (i0 = [] ∧ i1 = [] ∧ d5 = [])) := by
  subst h0 h1 h5
  rw [get_current_price_eq]
  by_cases hc0 : P (Query.intraday1d ticker 0) = []
  · by_cases hc1 : P (Query.intraday1d ticker 1) = []
    · by_cases hc5 : P (Query.daily ticker 5) = []
      · simp [hc0, hc1, hc5]
      · simp [hc0, hc1, hc5]
    · simp [hc0, hc1]
  · simp [hc0]

/-- Provider for the C8 witness: the first intraday attempt succeeds. -/
def provC8 : Provider := fun q =>
  match q with
  | Query.intraday1d "T" 0 => [3, 5]
  | _ => []

/-- Witness for C8: a non-empty first attempt returns its most recent
close after one attempt and no backoff sleep. -/
theorem C8_retry_fallback_witness :
    get_current_price provC8 "T" = ⟨Except.ok ([(3 : ℚ), 5].getLastD 0), 1, 0⟩ :=
  (C8_retry_fallback provC8 "T" [3, 5] [] [] rfl rfl rfl).2.1 (by decide)

/-- Provider for the C1 counterexample: full history closes peak at 100
for ticker T; the 5-day intraday window is empty. -/
def provC1 : Provider := fun q =>
  match q with
  | Query.histMax "T" => [100]
  | _ => []

/-- Cache for the C1 counterexample: ticker T stored ath 110, written 10
days before the run (an intraday spike that has left the 5-day window). -/
def cacheC1 : Cache := [("T", ⟨some (some 110), some 0⟩)]

/-- Counterexample to C1 as stated: the stale entry holds 110, the refresh
sees a full-history close maximum of 100 and an empty intraday window, and
the refresh write stores 100, strictly smaller than the previously stored
ath of the same ticker. -/
theorem C1_counterexample :
    lookupCache cacheC1 "T" = some ⟨some (some 110), some 0⟩
    ∧ (get_cached_ath provC1 (10 * 86400) "T" cacheC1).result = Except.ok 100
    ∧ lookupCache (get_cached_ath provC1 (10 * 86400) "T" cacheC1).cache "T"
        = some ⟨some (some 100), some (10 * 86400)⟩
    ∧ (100 : ℚ) < 110 := by
  decide

/-- Claim C1 (amended): the live-price breach update in main never lowers
the stored ath: after a fresh-path read of the stored value v, processing
the asset either leaves the entry of that ticker unchanged or replaces it
with a live price strictly greater than v. The claim as stated fails for
refresh writes, which store the maximum of the current provider data
without comparing against the previously stored value. -/
theorem C1_breach_write_monotone (P : Provider) (nowA nowB year : Int)
    (name ticker : String) (cache : Cache) (e : CacheEntry) (v : ℚ)
    (hlook : lookupCache cache ticker = some e)
    (hfresh : freshValue nowA e = some v) :
    e.ath = some (some v)
    ∧ (lookupCache (processAsset P nowA nowB year name ticker cache).cache ticker = some e
       ∨ ∃ cur : ℚ, v < cur
           ∧ lookupCache (processAsset P nowA nowB year name ticker cache).cache ticker
               = some ⟨some (some cur), some nowB⟩) := by
  refine ⟨freshValue_ath nowA e v hfresh, ?_⟩
  have hga : get_cached_ath P nowA ticker cache = ⟨Except.ok v, cache, 0, []⟩ := by
    apply get_cached_ath_fresh
    rw [hlook]
    simpa using hfresh
  cases hp : (get_current_price P ticker).result with
  | error e2 =>
    left
    simp only [processAsset, hga, hp]
    exact hlook
  | ok current =>
    by_cases hlt : v < current
    · right
      refine ⟨current, hlt, ?_⟩
      simp only [processAsset, hga, hp, if_pos hlt]
      exact lookupCache_insertCache_self _ _ _
    · left
      simp only [processAsset, hga, hp, if_neg hlt]
      exact hlook

/-- Provider for the C1 witness: a live intraday price of 60. -/
def provC1w : Provider := fun q =>
  match q with
  | Query.intraday1d "T" 0 => [60]
  | _ => []

/-- Cache for the C1 witness: a fresh entry with stored ath 50. -/
def cacheC1w : Cache := [("T", ⟨some (some 50), some 0⟩)]

/-- Witness for the amended C1: fresh stored ath 50, live price 60. -/
theorem C1_breach_write_monotone_witness :
    (⟨some (some 50), some 0⟩ : CacheEntry).ath = some (some 50)
    ∧ (lookupCache (processAsset provC1w 0 7 2025 "N" "T" cacheC1w).cache "T"
          = some ⟨some (some 50), some 0⟩
       ∨ ∃ cur : ℚ, 50 < cur
           ∧ lookupCache (processAsset provC1w 0 7 2025 "N" "T" cacheC1w).cache "T"
               = some ⟨some (some cur), some 7⟩) :=
  C1_breach_write_monotone provC1w 0 7 2025 "N" "T" cacheC1w ⟨some (some 50), some 0⟩ 50
    (by decide) (by decide)

/-- Claim C4: whenever the fetched live price strictly exceeds the ath
obtained from the cache, the cache entry of that ticker is replaced by the
live price with the breach timestamp and persisted immediately, regardless
of how fresh the prior entry was, and the report row of the asset uses the
live price as its ath. -/
theorem C4_live_breach_update (P : Provider) (nowA nowB year : Int)
    (name ticker : String) (cache : Cache) (ath0 current : ℚ)
    (hath : (get_cached_ath P nowA ticker cache).result = Except.ok ath0)
    (hcur : (get_current_price P ticker).result = Except.ok current)
    (hgt : ath0 < current) :
    (processAsset P nowA nowB year name ticker cache).cache
        = insertCache (get_cached_ath P nowA ticker cache).cache ticker
            ⟨some (some current), some nowB⟩
    ∧ lookupCache (processAsset P nowA nowB year name ticker cache).cache ticker
        = some ⟨some (some current), some nowB⟩
    ∧ (processAsset P nowA nowB year name ticker cache).saves
        = (get_cached_ath P nowA ticker cache).saves
            ++ [(processAsset P nowA nowB year name ticker cache).cache]
    ∧ (processAsset P nowA nowB year name ticker cache).row
        = Row.ok (mkRowData P name ticker current current year)
    ∧ rowAthField (processAsset P nowA nowB year name ticker cache).row = some current := by
  simp only [processAsset, hath, hcur, if_pos hgt]
  simp [lookupCache_insertCache_self, rowAthField, mkRowData]

/-- Provider for the C4 witness: a live intraday price of 61. -/
def provC4w : Provider := fun q =>
  match q with
  | Query.intraday1d "T" 0 => [61]
  | _ => []

/-- Cache for the C4 witness: a fresh entry with stored ath 50. -/
def cacheC4w : Cache := [("T", ⟨some (some 50), some 0⟩)]

/-- Witness for C4: live price 61 beats the cached ath 50, so the entry is
replaced, persisted, and reported as the ath. -/
theorem C4_live_breach_update_witness :
    (processAsset provC4w 0 9 2025 "N" "T" cacheC4w).cache
        = insertCache (get_cached_ath provC4w 0 "T" cacheC4w).cache "T"
            ⟨some (some 61), some 9⟩
    ∧ lookupCache (processAsset provC4w 0 9 2025 "N" "T" cacheC4w).cache "T"
        = some ⟨some (some 61), some 9⟩
    ∧ (processAsset provC4w 0 9 2025 "N" "T" cacheC4w).saves
        = (get_cached_ath provC4w 0 "T" cacheC4w).saves
            ++ [(processAsset provC4w 0 9 2025 "N" "T" cacheC4w).cache]
    ∧ (processAsset provC4w 0 9 2025 "N" "T" cacheC4w).row
        = Row.ok (mkRowData provC4w "N" "T" 61 61 2025)
    ∧ rowAthField (processAsset provC4w 0 9 2025 "N" "T" cacheC4w).row = some 61 :=
  C4_live_breach_update provC4w 0 9 2025 "N" "T" cacheC4w 50 61
    (by decide) (by decide) (by decide)

/-- The row produced for an asset carries its display name. -/
theorem processAsset_rowName (P : Provider) (nowA nowB year : Int)
    (name ticker : String) (cache : Cache) :
    rowName (processAsset P nowA nowB year name ticker cache).row = name := by
  cases h1 : (get_cached_ath P nowA ticker cache).result with
  | error e => simp [processAsset, h1, rowName]
  | ok ath0 =>
    cases h2 : (get_current_price P ticker).result with
    | error e => simp [processAsset, h1, h2, rowName]
    | ok current =>
      by_cases hlt : ath0 < current
      · simp [processAsset, h1, h2, hlt, rowName, mkRowData]
      · simp [processAsset, h1, h2, hlt, rowName, mkRowData]

/-- The loop yields one row per asset. -/
theorem runAssets_length (P : Provider) (nowA nowB year : Int)
    (assets : List (String × String)) (cache : Cache) :
    (runAssets P nowA nowB year assets cache).rows.length = assets.length := by
  induction assets generalizing cache with
  | nil => rfl
  | cons a rest ih =>
    obtain ⟨nm, tk⟩ := a
    simp [runAssets, ih]

/-- The rows carry the display names in input order. -/
theorem runAssets_names (P : Provider) (nowA nowB year : Int)
    (assets : List (String × String)) (cache : Cache) :
    (runAssets P nowA nowB year assets cache).rows.map rowName = assets.map Prod.fst := by
  induction assets generalizing cache with
  | nil => rfl
  | cons a rest ih =>
    obtain ⟨nm, tk⟩ := a
    simp [runAssets, ih, processAsset_rowName]

/-- Row i of the loop is exactly the record of asset i, processed against
the cache threaded through the first i iterations. -/
theorem runAssets_getD (P : Provider) (nowA nowB year : Int)
    (assets : List (String × String)) (cache : Cache) (i : Nat)
    (h : i < assets.length) :
    (runAssets P nowA nowB year assets cache).rows.getD i (Row.err "" "")
      = (processAsset P nowA nowB year (assets.getD i ("", "")).1 (assets.getD i ("", "")).2
          (runAssets P nowA nowB year (List.take i assets) cache).cache).row := by
  induction assets generalizing cache i with
  | nil => exact absurd h (by simp)
  | cons a rest ih =>
    obtain ⟨nm, tk⟩ := a
    cases i with
    | zero => simp [runAssets]
    | succ j =>
      have hj : j < rest.length := by simpa using h
      simp only [runAssets, List.getD_cons_succ, List.take_succ_cons]
      exact ih (processAsset P nowA nowB year nm tk cache).cache j hj

/-- A raised refresh failure becomes an error record for that asset. -/
theorem processAsset_err_ath (P : Provider) (nowA nowB year : Int)
    (nm tk : String) (c : Cache) (e : String)
    (h : (get_cached_ath P nowA tk c).result = Except.error e) :
    (processAsset P nowA nowB year nm tk c).row = Row.err nm e := by
  simp [processAsset, h]

/-- A raised price-fetch failure becomes an error record for that asset. -/
theorem processAsset_err_price (P : Provider) (nowA nowB year : Int)
    (nm tk : String) (c : Cache) (a : ℚ) (e : String)
    (h1 : (get_cached_ath P nowA tk c).result = Except.ok a)
    (h2 : (get_current_price P tk).result = Except.error e) :
    (processAsset P nowA nowB year nm tk c).row = Row.err nm e := by
  simp [processAsset, h1, h2]

/-- Claim C9: the per-asset loop produces exactly one record per asset, in
input order: row i is the record of asset i processed against the cache
threaded through the first i iterations; an exception raised by either
retrieval while handling one ticker is caught at that asset boundary and
converted into an error record carrying the display name and the message,
and every remaining asset is still processed. -/
theorem C9_one_record_per_asset (P : Provider) (nowA nowB year : Int)
    (assets : List (String × String)) (cache : Cache) :
    (runAssets P nowA nowB year assets cache).rows.length = assets.length
    ∧ (runAssets P nowA nowB year assets cache).rows.map rowName = assets.map Prod.fst
    ∧ (∀ i, i < assets.length →
        (runAssets P nowA nowB year assets cache).rows.getD i (Row.err "" "")
          = (processAsset P nowA nowB year (assets.getD i ("", "")).1 (assets.getD i ("", "")).2
              (runAssets P nowA nowB year (List.take i assets) cache).cache).row)
    ∧ (∀ nm tk c e, (get_cached_ath P nowA tk c).result = Except.error e →
        (processAsset P nowA nowB year nm tk c).row = Row.err nm e)
    ∧ (∀ nm tk c a e, (get_cached_ath P nowA tk c).result = Except.ok a →
        (get_current_price P tk).result = Except.error e →
        (processAsset P nowA nowB year nm tk c).row = Row.err nm e) :=
  ⟨runAssets_length P nowA nowB year assets cache,
   runAssets_names P nowA nowB year assets cache,
   fun i h => runAssets_getD P nowA nowB year assets cache i h,
   fun nm tk c e h => processAsset_err_ath P nowA nowB year nm tk c e h,
   fun nm tk c a e h1 h2 => processAsset_err_price P nowA nowB year nm tk c a e h1 h2⟩

/-- Asset list for the C9 witness: asset A will fail, asset B succeeds. -/
def assetsC9 : List (String × String) := [("A", "TA"), ("B", "TB")]

/-- Provider for the C9 witness: data only for ticker TB. -/
def provC9 : Provider := fun q =>
  match q with
  | Query.histMax "TB" => [10]
  | Query.intraday1d "TB" 0 => [12]
  | _ => []

/-- Witness for C9: two assets, the first fails and is converted into an
error record, the second is still processed; two rows come out. -/
theorem C9_one_record_per_asset_witness :
    (runAssets provC9 0 0 2025 assetsC9 []).rows.length = assetsC9.length
    ∧ (runAssets provC9 0 0 2025 assetsC9 []).rows.getD 0 (Row.err "" "")
        = (processAsset provC9 0 0 2025 (assetsC9.getD 0 ("", "")).1 (assetsC9.getD 0 ("", "")).2
            (runAssets provC9 0 0 2025 (List.take 0 assetsC9) []).cache).row
    ∧ (processAsset provC9 0 0 2025 "A" "TA" []).row
        = Row.err "A" ("Could not refresh ATH for " ++ "TA") :=
  ⟨(C9_one_record_per_asset provC9 0 0 2025 assetsC9 []).1,
   (C9_one_record_per_asset provC9 0 0 2025 assetsC9 []).2.2.1 0 (by decide),
   (C9_one_record_per_asset provC9 0 0 2025 assetsC9 []).2.2.2.1 "A" "TA" []
     ("Could not refresh ATH for " ++ "TA") (by decide)⟩

/-- The success-row filter is empty exactly when every row is an error
record. -/
theorem okRows_eq_nil_iff (rows : List Row) :
    okRows rows = [] ↔ ∀ r ∈ rows, isErrRow r = true := by
  unfold okRows
  rw [List.filterMap_eq_nil_iff]
  constructor
  · intro h r hr
    cases r with
    | ok d => exact absurd (h _ hr) (by simp)
    | err n m => rfl
  · intro h r hr
    cases r with
    | ok d => exact absurd (h _ hr) (by simp [isErrRow])
    | err n m => rfl

/-- Claim C10: when every asset produced an error record, main raises the
empty-sequence ValueError at the column-width computation, before any
per-asset output is printed and before report.html is written, so the run
aborts with no report; and the width computation is only reachable under
the precondition that at least one asset succeeded, in which case the full
output is produced with the rows in order. -/
theorem C10_all_errors_abort (P : Provider) (nowA nowB year : Int)
    (fm : ℚ → String) (cache : Cache) :
    ((∀ r ∈ (runAssets P nowA nowB year tickersList cache).rows, isErrRow r = true) →
      (main_run P nowA nowB year fm cache).1
        = Except.error "max() arg is an empty sequence")
    ∧ ((∃ r ∈ (runAssets P nowA nowB year tickersList cache).rows, isErrRow r = false) →
      ∃ out : MainOutput, (main_run P nowA nowB year fm cache).1 = Except.ok out
        ∧ out.printed = (runAssets P nowA nowB year tickersList cache).rows
        ∧ out.report = (runAssets P nowA nowB year tickersList cache).rows) := by
  constructor
  · intro h
    have hok : okRows (runAssets P nowA nowB year tickersList cache).rows = [] :=
      (okRows_eq_nil_iff _).mpr h
    simp [main_run, mainAfterLoop, hok, pyMaxNat]
  · rintro ⟨r, hr, hre⟩
    have hm : ∃ d, d ∈ okRows (runAssets P nowA nowB year tickersList cache).rows := by
      cases r with
      | ok d => exact ⟨d, List.mem_filterMap.mpr ⟨Row.ok d, hr, rfl⟩⟩
      | err n m => simp [isErrRow] at hre
    obtain ⟨d, hd⟩ := hm
    cases hok : okRows (runAssets P nowA nowB year tickersList cache).rows with
    | nil => rw [hok] at hd; simp at hd
    | cons x xs =>
      refine ⟨⟨(xs.map fun d => (fm d.current).length).foldl max ((fm x.current).length),
              (xs.map fun d => (fm d.ath).length).foldl max ((fm x.ath).length),
              (runAssets P nowA nowB year tickersList cache).rows,
              (runAssets P nowA nowB year tickersList cache).rows⟩, ?_, rfl, rfl⟩
      simp [main_run, mainAfterLoop, hok, pyMaxNat]

/-- Provider for the C10 witness abort branch: no data at all, every
hardcoded ticker fails. -/
def provC10 : Provider := fun _ => []

/-- Provider for the C10 witness success branch: every ticker refreshes to
ath 10 and trades live at 12. -/
def provC10ok : Provider := fun q =>
  match q with
  | Query.histMax _ => [10]
  | Query.intraday1d _ 0 => [12]
  | _ => []

/-- Witness for C10: with no data every asset errors and the run aborts at
the width computation; with one succeeding configuration the output is
produced. -/
theorem C10_all_errors_abort_witness :
    (main_run provC10 0 0 2025 (fun _ => "") []).1
        = Except.error "max() arg is an empty sequence"
    ∧ ∃ out : MainOutput, (main_run provC10ok 0 0 2025 (fun _ => "") []).1 = Except.ok out
        ∧ out.printed = (runAssets provC10ok 0 0 2025 tickersList []).rows
        ∧ out.report = (runAssets provC10ok 0 0 2025 tickersList []).rows :=
  ⟨(C10_all_errors_abort provC10 0 0 2025 (fun _ => "") []).1 (by decide),
   (C10_all_errors_abort provC10ok 0 0 2025 (fun _ => "") []).2 (by decide)⟩
